import Mathlib

/-!
Shallow embedding of the APNS binary-provider encoder (notification.go).

Byte sequences are modelled as lists of natural numbers below 256;
machine-integer conversions are explicit reductions modulo powers of two.
Go maps appear as association lists with unique keys; JSON marshalling of
the standard library is modelled by an executable encoder over a JSON value
type (objects emitted with sorted keys, structs in field order, with the
HTML-escaping that the Go encoder applies by default).
-/

namespace APNS

/-- Constants from the source: protocol command byte. -/
def commandID : Nat := 2

/-- Item ID of the device-token TLV item. -/
def deviceTokenItemID : Nat := 1

/-- Item ID of the payload TLV item. -/
def payloadItemID : Nat := 2

/-- Item ID of the notification-identifier TLV item. -/
def notificationIdentifierItemID : Nat := 3

/-- Item ID of the expiration-date TLV item. -/
def expirationDateItemID : Nat := 4

/-- Item ID of the priority TLV item. -/
def priorityItemID : Nat := 5

/-- Declared (fixed) length of the device-token item, from the source. -/
def deviceTokenItemLength : Nat := 32

/-- Declared length of the notification-identifier item. -/
def notificationIdentifierItemLength : Nat := 4

/-- Declared length of the expiration-date item. -/
def expirationDateItemLength : Nat := 4

/-- Declared length of the priority item. -/
def priorityItemLength : Nat := 1

/-- Errors produced by the hex decoder (encoding/hex): an invalid digit
carrying the offending character, or an odd-length input. -/
inductive HexError where
  | invalidByte (c : Char) : HexError
  | oddLength : HexError
  deriving DecidableEq, Repr

/-- Errors produced by the binary encoder: a device-token decode failure
wrapping the underlying hex error (fmt.Errorf wrapping in the source). -/
inductive EncodeError where
  | tokenDecode (e : HexError) : EncodeError
  deriving DecidableEq, Repr

/-- Value of a single hexadecimal digit character, as encoding/hex accepts
them (0-9, a-f, A-F). -/
def hexDigit (c : Char) : Option Nat :=
  if 48 ≤ c.toNat ∧ c.toNat ≤ 57 then some (c.toNat - 48)
  else if 97 ≤ c.toNat ∧ c.toNat ≤ 102 then some (c.toNat - 87)
  else if 65 ≤ c.toNat ∧ c.toNat ≤ 70 then some (c.toNat - 55)
  else none

/-- Model of encoding/hex DecodeString: characters are consumed in pairs,
an invalid digit fails with that character, and a leftover lone character
fails with the odd-length error. -/
def hexDecode : List Char → Except HexError (List Nat)
  | [] => .ok []
  | [_] => .error .oddLength
  | a :: b :: rest =>
    match hexDigit a with
    | none => .error (.invalidByte a)
    | some x =>
      match hexDigit b with
      | none => .error (.invalidByte b)
      | some y =>
        match hexDecode rest with
        | .error e => .error e
        | .ok t => .ok ((16 * x + y) :: t)

/-- Big-endian byte string of width k for a natural number (the number is
implicitly reduced modulo 2 ^ (8 * k), as Go's fixed-width writes do). -/
def beBytes : Nat → Nat → List Nat
  | 0, _ => []
  | k + 1, n => beBytes k (n / 256) ++ [n % 256]

/-- Big-endian value of a byte string. -/
def beNat (l : List Nat) : Nat := l.foldl (fun a b => 256 * a + b) 0

/-- Go conversion of an integer to an unsigned w-bit value (two's-complement
truncation, i.e. the Euclidean remainder modulo 2 ^ w). -/
def uintOfInt (w : Nat) (x : Int) : Nat := (x % ((2 : Int) ^ w)).toNat

/-- Append a single byte to a buffer (binary.Write of a uint8). -/
def writeU8 (b : List Nat) (x : Nat) : List Nat := b ++ beBytes 1 x

/-- Append a big-endian 16-bit value to a buffer (binary.Write of a uint16). -/
def writeU16 (b : List Nat) (x : Nat) : List Nat := b ++ beBytes 2 x

/-- Append a big-endian 32-bit value to a buffer (binary.Write of a uint32). -/
def writeU32 (b : List Nat) (x : Nat) : List Nat := b ++ beBytes 4 x

/-- Append raw bytes to a buffer (binary.Write of a byte slice). -/
def writeBytes (b : List Nat) (v : List Nat) : List Nat := b ++ v

/-- JSON values, the model of the interface-typed values the source stores
in its maps. Objects built from Go maps are marshalled with sorted keys;
the fields constructor keeps struct-field order (Go marshals structs in
declaration order). -/
inductive JSONValue where
  | str (s : String) : JSONValue
  | num (i : Int) : JSONValue
  | boolv (b : Bool) : JSONValue
  | null : JSONValue
  | arrStr (xs : List String) : JSONValue
  | obj (kvs : List (String × JSONValue)) : JSONValue
  | fields (kvs : List (String × JSONValue)) : JSONValue

/-- UTF-8 encoding of a single character. -/
def utf8Encode (c : Char) : List Nat :=
  let n := c.toNat
  if n < 128 then [n]
  else if n < 2048 then [192 + n / 64, 128 + n % 64]
  else if n < 65536 then [224 + n / 4096, 128 + (n / 64) % 64, 128 + n % 64]
  else [240 + n / 262144, 128 + (n / 4096) % 64, 128 + (n / 64) % 64, 128 + n % 64]

/-- Lower-case hexadecimal digit character code for a value below 16. -/
def hexDigitChar (n : Nat) : Nat := if n < 10 then 48 + n else 87 + n

/-- Escaping of one character inside a JSON string, as the Go encoder does
by default (quotes, backslash, control characters, and the HTML-relevant
characters escaped as unicode sequences). -/
def escapeChar (c : Char) : List Nat :=
  let n := c.toNat
  if n = 34 then [92, 34]
  else if n = 92 then [92, 92]
  else if n = 10 then [92, 110]
  else if n = 13 then [92, 114]
  else if n = 9 then [92, 116]
  else if n < 32 ∨ n = 60 ∨ n = 62 ∨ n = 38 then
    [92, 117, 48, 48, hexDigitChar (n / 16), hexDigitChar (n % 16)]
  else utf8Encode c

/-- Quoted JSON string bytes. -/
def quoteString (s : String) : List Nat :=
  [34] ++ (s.data.map escapeChar).flatten ++ [34]

/-- Decimal bytes of an integer. -/
def intBytes (i : Int) : List Nat := (toString i).data.map Char.toNat

/-- Comma-joined concatenation of byte chunks. -/
def commaJoin : List (List Nat) → List Nat
  | [] => []
  | [x] => x
  | x :: y :: xs => x ++ [44] ++ commaJoin (y :: xs)

/-- Insertion into a key-sorted list of marshalled object members. -/
def insertPair (kv : String × List Nat) :
    List (String × List Nat) → List (String × List Nat)
  | [] => [kv]
  | x :: xs => if kv.1 < x.1 then kv :: x :: xs else x :: insertPair kv xs

/-- Key-sorting of marshalled object members (Go marshals map keys in
sorted order). -/
def sortPairs (l : List (String × List Nat)) : List (String × List Nat) :=
  l.foldr insertPair []

mutual

/-- Model of encoding/json Marshal restricted to the value grammar the
source produces: compact output, sorted keys for map-backed objects,
declaration order for struct-backed objects. -/
def jsonMarshal : JSONValue → List Nat
  | .str s => quoteString s
  | .num i => intBytes i
  | .boolv b => if b then [116, 114, 117, 101] else [102, 97, 108, 115, 101]
  | .null => [110, 117, 108, 108]
  | .arrStr xs => [91] ++ commaJoin (xs.map quoteString) ++ [93]
  | .obj kvs =>
    [123] ++ commaJoin ((sortPairs (jsonMarshalKVs kvs)).map
      (fun kv => quoteString kv.1 ++ [58] ++ kv.2)) ++ [125]
  | .fields kvs =>
    [123] ++ commaJoin ((jsonMarshalKVs kvs).map
      (fun kv => quoteString kv.1 ++ [58] ++ kv.2)) ++ [125]

/-- Marshalling of the members of an object, keeping their keys. -/
def jsonMarshalKVs : List (String × JSONValue) → List (String × List Nat)
  | [] => []
  | (k, v) :: rest => (k, jsonMarshal v) :: jsonMarshalKVs rest

end

/-- Lookup in an association list, the observation of a Go map. -/
def lookupKV : List (String × JSONValue) → String → Option JSONValue
  | [], _ => none
  | (k', v) :: rest, k => if k' = k then some v else lookupKV rest k

/-- Model of a Go map assignment data[k] = v over an association list:
replaces the binding when the key is present, appends it otherwise. -/
def mapInsert : List (String × JSONValue) → String → JSONValue →
    List (String × JSONValue)
  | [], k, v => [(k, v)]
  | (k', v') :: rest, k, v =>
    if k' = k then (k, v) :: rest else (k', v') :: mapInsert rest k v

/-- Alert structure from the source (all fields optional strings except the
localization arguments). -/
structure Alert where
  Body : String := ""
  Title : String := ""
  Action : String := ""
  LocKey : String := ""
  LocArgs : List String := []
  ActionLocKey : String := ""
  LaunchImage : String := ""
  deriving DecidableEq, Repr

/-- Emptiness test of an Alert, exactly the conjunction the source checks:
body, loc-key, loc-args, action-loc-key and launch-image. -/
def Alert.isZero (a : Alert) : Bool :=
  a.Body.length == 0 && a.LocKey.length == 0 && a.LocArgs.length == 0 &&
    a.ActionLocKey.length == 0 && a.LaunchImage.length == 0

/-- JSON value of an Alert as encoding/json marshals the struct: fields in
declaration order, each omitted when empty (the omitempty tags). -/
def alertToJSON (a : Alert) : JSONValue :=
  .fields ((if a.Body = "" then [] else [("body", .str a.Body)]) ++
    (if a.Title = "" then [] else [("title", .str a.Title)]) ++
    (if a.Action = "" then [] else [("action", .str a.Action)]) ++
    (if a.LocKey = "" then [] else [("loc-key", .str a.LocKey)]) ++
    (if a.LocArgs = [] then [] else [("loc-args", .arrStr a.LocArgs)]) ++
    (if a.ActionLocKey = "" then [] else
      [("action-loc-key", .str a.ActionLocKey)]) ++
    (if a.LaunchImage = "" then [] else [("launch-image", .str a.LaunchImage)]))

/-- APS structure from the source; the badge pointer is an optional
integer, the URL-args slice an optional list (nil versus non-nil). -/
structure APS where
  Alert : Alert := {}
  Badge : Option Int := none
  Sound : String := ""
  ContentAvailable : Int := 0
  URLArgs : Option (List String) := none
  Category : String := ""

/-- Conditional construction of the aps dictionary, one guard per field in
source order. -/
def APS.serializeForAPNS (aps : APS) : List (String × JSONValue) :=
  let data : List (String × JSONValue) := []
  let data := if !aps.Alert.isZero then
    mapInsert data "alert" (alertToJSON aps.Alert) else data
  let data := match aps.Badge with
    | some b => mapInsert data "badge" (.num b)
    | none => data
  let data := if aps.Sound ≠ "" then
    mapInsert data "sound" (.str aps.Sound) else data
  let data := if aps.ContentAvailable ≠ 0 then
    mapInsert data "content-available" (.num aps.ContentAvailable) else data
  let data := if aps.Category ≠ "" then
    mapInsert data "category" (.str aps.Category) else data
  let data := match aps.URLArgs with
    | some l => if l.length ≠ 0 then mapInsert data "url-args" (.arrStr l)
      else data
    | none => data
  data

/-- Payload structure from the source: an APS value, the MDM mode string
and the custom-values map. -/
structure Payload where
  APS : APS := {}
  MDM : String := ""
  CustomValues : List (String × JSONValue) := []

/-- Top-level payload dictionary: a copy of the custom values, then either
the mdm binding (when MDM is non-empty) or the aps binding. -/
def Payload.serializeForAPNS (p : Payload) : List (String × JSONValue) :=
  let data := p.CustomValues
  if p.MDM.length ≠ 0 then mapInsert data "mdm" (.str p.MDM)
  else mapInsert data "aps" (.obj p.APS.serializeForAPNS)

/-- JSON bytes of a payload (MarshalJSONForAPNS in the source; the Marshal
error return is discarded there). -/
def Payload.MarshalJSONForAPNS (p : Payload) : List Nat :=
  jsonMarshal (.obj p.serializeForAPNS)

/-- Custom-value mutator: refuses the reserved key aps with an error and
leaves the payload unchanged, stores every other key. -/
def Payload.SetCustomValue (p : Payload) (key : String) (value : JSONValue) :
    Payload × Option String :=
  if key = "aps" then (p, some "cannot assign a custom APS value in payload")
  else ({ p with CustomValues := mapInsert p.CustomValues key value }, none)

/-- Notification record from the source; the expiration is the optional
Unix-seconds value of the time field, the identifier a 32-bit unsigned
value, the priority a machine integer. -/
structure Notification where
  ID : String := ""
  DeviceToken : String := ""
  Identifier : Nat := 0
  Expiration : Option Int := none
  Priority : Int := 0
  Payload : Option Payload := none

/-- Payload JSON bytes used by the encoder: empty when the payload pointer
is nil, the marshalled payload otherwise. -/
def payloadBytes (n : Notification) : List Nat :=
  match n.Payload with
  | some p => p.MarshalJSONForAPNS
  | none => []

/-- Binary encoder ToBinary: hex-decodes the device token (failing with an
encode error and the empty byte string), then writes the five TLV items
into a buffer, write for write as the source does, and wraps the buffer in
the outer frame. -/
def toBinary (n : Notification) : List Nat × Option EncodeError :=
  let b : List Nat := []
  match hexDecode n.DeviceToken.data with
  | .error e => (b, some (.tokenDecode e))
  | .ok binTok =>
    let j : List Nat := payloadBytes n
    let buf := b
    let buf := writeU8 buf deviceTokenItemID
    let buf := writeU16 buf deviceTokenItemLength
    let buf := writeBytes buf binTok
    let buf := writeU8 buf payloadItemID
    let buf := writeU16 buf j.length
    let buf := writeBytes buf j
    let buf := writeU8 buf notificationIdentifierItemID
    let buf := writeU16 buf notificationIdentifierItemLength
    let buf := writeU32 buf n.Identifier
    let buf := writeU8 buf expirationDateItemID
    let buf := writeU16 buf expirationDateItemLength
    let buf := match n.Expiration with
      | none => writeU32 buf 0
      | some t => writeU32 buf (uintOfInt 32 t)
    let buf := writeU8 buf priorityItemID
    let buf := writeU16 buf priorityItemLength
    let buf := writeU8 buf (uintOfInt 8 n.Priority)
    let framebuf : List Nat := []
    let framebuf := writeU8 framebuf commandID
    let framebuf := writeU32 framebuf buf.length
    let framebuf := writeBytes framebuf buf
    (framebuf, none)

/-- TLV item as the spec describes the wire format: a one-byte ID, a
two-byte big-endian length field, then the value bytes. -/
def tlvItem (id len : Nat) (v : List Nat) : List Nat :=
  id :: beBytes 2 len ++ v

/-- Expiration item value as the spec describes it at the wire level: four
zero bytes when no expiration is set, else the 32-bit truncation of the
Unix seconds, big-endian. -/
def expirationValueBytes (n : Notification) : List Nat :=
  match n.Expiration with
  | none => beBytes 4 0
  | some t => beBytes 4 (uintOfInt 32 t)

/-- Item buffer of a notification as the spec lists it: the five TLV items
in their fixed order, for a device token that decoded to tok. -/
def specFrameItems (n : Notification) (tok : List Nat) : List Nat :=
  tlvItem deviceTokenItemID deviceTokenItemLength tok ++
  tlvItem payloadItemID (payloadBytes n).length (payloadBytes n) ++
  tlvItem notificationIdentifierItemID notificationIdentifierItemLength
    (beBytes 4 n.Identifier) ++
  tlvItem expirationDateItemID expirationDateItemLength
    (expirationValueBytes n) ++
  tlvItem priorityItemID priorityItemLength [uintOfInt 8 n.Priority]

/-- One TLV read step: a one-byte ID, a two-byte big-endian length, then
that many value bytes; fails when fewer bytes remain. -/
def readItem : List Nat → Option ((Nat × List Nat) × List Nat)
  | id :: h :: l :: rest =>
    let len := 256 * h + l
    if rest.length < len then none
    else some ((id, rest.take len), rest.drop len)
  | _ => none

/-- Reading of a fixed number of consecutive TLV items. -/
def parseItems : Nat → List Nat → Option (List (Nat × List Nat) × List Nat)
  | 0, bytes => some ([], bytes)
  | k + 1, bytes =>
    match readItem bytes with
    | none => none
    | some (item, rest) =>
      match parseItems k rest with
      | none => none
      | some (items, rest') => some (item :: items, rest')

/-- Frame re-parser of the spec's round-trip property: the command byte,
the four-byte length field, then the five items read item by item. -/
def parseFrame (f : List Nat) : Option (List (Nat × List Nat)) :=
  match f with
  | 2 :: _ :: _ :: _ :: _ :: rest =>
    match parseItems 5 rest with
    | some (items, _) => some items
    | none => none
  | _ => none

/-- Notification with a one-byte device token, used to examine the
device-token item of a frame. -/
def nX1 : Notification := { DeviceToken := "ab" }

/-- Notification with a single-byte token aa. -/
def nW1 : Notification := { DeviceToken := "aa" }

/-- Notification whose device token is 2 ^ 33 hex digits long, so that its
item buffer exceeds 2 ^ 32 bytes. -/
def nC2 : Notification := { DeviceToken := String.mk (List.replicate (2 ^ 33) 'a') }

/-- Notification with a one-byte token and identifier 1. -/
def nW2 : Notification := { DeviceToken := "aa", Identifier := 1 }

/-- Payload in MDM mode whose custom values carry an aps key directly. -/
def pC3 : Payload := { MDM := "x", CustomValues := [("aps", .num 1)] }

/-- Payload in MDM mode with an ordinary custom value. -/
def pW3 : Payload := { MDM := "y", CustomValues := [("k", .str "v")] }

/-- Payload in APS mode (empty MDM string). -/
def pW3e : Payload := { APS := { Sound := "default" } }

/-- Alert whose only set field is the launch image. -/
def aX6 : Alert := { LaunchImage := "img" }

/-- APS value carrying the launch-image-only alert. -/
def apsX6 : APS := { Alert := aX6 }

/-- Payload used to exercise the custom-value mutator. -/
def pW7 : Payload := { CustomValues := [] }

/-- Notification whose expiration Unix seconds equal 2 ^ 32. -/
def nX8 : Notification :=
  { DeviceToken := "", Expiration := some ((2 : Int) ^ 32), Priority := 10 }

/-- Notification with expiration at Unix time 1700000000. -/
def nW8 : Notification :=
  { DeviceToken := "", Expiration := some 1700000000, Priority := 10 }

/-- Notification with a one-byte token and identifier 5, whose frame the
item-by-item reader cannot re-parse. -/
def nX9 : Notification := { DeviceToken := "ab", Identifier := 5 }

/-- Notification with a 32-byte token (64 hex digits), identifier 7 and
immediate priority. -/
def nW9 : Notification :=
  { DeviceToken := "aaaaaaaaaaaaaaaaaaaaaaaaaaaaaaaaaaaaaaaaaaaaaaaaaaaaaaaaaaaaaaaa",
    Identifier := 7, Priority := 10 }

/-- Notification whose device token is not valid hexadecimal. -/
def nZZ : Notification := { DeviceToken := "zz" }

/-- Notification with a negative priority field. -/
def nW10 : Notification := { DeviceToken := "", Priority := -1 }

/-! Basic lemmas about byte-string encodings and association lists. -/

theorem beBytes_length (k : Nat) : ∀ n : Nat, (beBytes k n).length = k := by
  induction k with
  | zero => intro n; rfl
  | succ k ih => intro n; simp [beBytes, ih]

theorem beNat_append_single (l : List Nat) (b : Nat) :
    beNat (l ++ [b]) = 256 * beNat l + b := by
  simp [beNat, List.foldl_append]

theorem beNat_beBytes (k : Nat) : ∀ n : Nat, n < 2 ^ (8 * k) →
    beNat (beBytes k n) = n := by
  induction k with
  | zero =>
    intro n h
    simp only [Nat.mul_zero, pow_zero, Nat.lt_one_iff] at h
    simp [beBytes, beNat, h]
  | succ k ih =>
    intro n h
    have hpow : (2 : Nat) ^ (8 * (k + 1)) = 2 ^ (8 * k) * 256 := by
      rw [Nat.mul_succ, pow_add]
      norm_num
    have hdiv : n / 256 < 2 ^ (8 * k) := by
      rw [Nat.div_lt_iff_lt_mul (by norm_num)]
      omega
    rw [beBytes, beNat_append_single, ih (n / 256) hdiv]
    omega

theorem lookupKV_mapInsert_self (m : List (String × JSONValue)) (k : String)
    (v : JSONValue) : lookupKV (mapInsert m k v) k = some v := by
  induction m with
  | nil => simp [mapInsert, lookupKV]
  | cons x rest ih =>
    obtain ⟨k', v'⟩ := x
    by_cases hk : k' = k
    · simp [mapInsert, hk, lookupKV]
    · simp [mapInsert, hk, lookupKV, ih]

theorem lookupKV_mapInsert_ne (m : List (String × JSONValue)) (k k' : String)
    (v : JSONValue) (h : k' ≠ k) :
    lookupKV (mapInsert m k v) k' = lookupKV m k' := by
  induction m with
  | nil => simp [mapInsert, lookupKV, h, Ne.symm h]
  | cons x rest ih =>
    obtain ⟨k₀, v₀⟩ := x
    by_cases hk : k₀ = k
    · subst hk
      simp [mapInsert, lookupKV, h, Ne.symm h]
    · simp [mapInsert, hk, lookupKV, ih]

theorem string_length_eq_zero_iff (s : String) : s.length = 0 ↔ s = "" := by
  cases s with
  | mk d =>
    constructor
    · intro h
      have hd : d = [] := by
        have : d.length = 0 := h
        exact List.length_eq_zero.mp this
      rw [hd]
    · intro h
      rw [h]
      rfl

/-! Structure of an encoded frame. -/

theorem uintOfInt_lt (w : Nat) (x : Int) : uintOfInt w x < 2 ^ w := by
  have hpos : (0 : Int) < (2 : Int) ^ w := by positivity
  have hlt : x % ((2 : Int) ^ w) < (2 : Int) ^ w := Int.emod_lt_of_pos x hpos
  have hcast : ((2 : Nat) ^ w : Int) = (2 : Int) ^ w := by push_cast; ring
  unfold uintOfInt
  omega

theorem uintOfInt8_mod (x : Int) : uintOfInt 8 x % 256 = uintOfInt 8 x :=
  Nat.mod_eq_of_lt (uintOfInt_lt 8 x)

theorem expirationValueBytes_length (n : Notification) :
    (expirationValueBytes n).length = 4 := by
  cases hE : n.Expiration <;> simp [expirationValueBytes, hE, beBytes_length]

theorem toBinary_ok (n : Notification) (tok : List Nat)
    (h : hexDecode n.DeviceToken.data = .ok tok) :
    toBinary n =
      ([2] ++ beBytes 4 (specFrameItems n tok).length ++ specFrameItems n tok,
        none) := by
  unfold toBinary
  rw [h]
  cases hE : n.Expiration <;>
    simp [specFrameItems, tlvItem, expirationValueBytes, writeU8, writeU16,
      writeU32, writeBytes, hE, commandID, deviceTokenItemID,
      deviceTokenItemLength, payloadItemID, notificationIdentifierItemID,
      notificationIdentifierItemLength, expirationDateItemID,
      expirationDateItemLength, priorityItemID, priorityItemLength,
      beBytes, uintOfInt8_mod, List.append_assoc]

theorem specFrameItems_length (n : Notification) (tok : List Nat) :
    (specFrameItems n tok).length =
      24 + tok.length + (payloadBytes n).length := by
  simp [specFrameItems, tlvItem, beBytes_length, expirationValueBytes_length]
  omega

theorem readItem_tlv (id len : Nat) (v rest : List Nat)
    (hv : v.length = len) (hlen : len < 65536) :
    readItem (tlvItem id len v ++ rest) = some ((id, v), rest) := by
  have hshape : tlvItem id len v ++ rest =
      id :: (len / 256 % 256) :: (len % 256) :: (v ++ rest) := by
    simp [tlvItem, beBytes]
  rw [hshape, readItem]
  have hval : 256 * (len / 256 % 256) + len % 256 = len := by omega
  rw [hval]
  have hge : ¬ (v ++ rest).length < len := by
    simp only [List.length_append]
    omega
  rw [if_neg hge]
  subst hv
  rw [List.take_left, List.drop_left]

theorem parseItems_cons (k : Nat) (bytes : List Nat) (item : Nat × List Nat)
    (rest : List Nat) (items : List (Nat × List Nat)) (rest' : List Nat)
    (h1 : readItem bytes = some (item, rest))
    (h2 : parseItems k rest = some (items, rest')) :
    parseItems (k + 1) bytes = some (item :: items, rest') := by
  simp [parseItems, h1, h2]

theorem parseFrame_shape (L : Nat) (items : List Nat) :
    parseFrame ([2] ++ beBytes 4 L ++ items) =
      match parseItems 5 items with
      | some (its, _) => some its
      | none => none := by
  have hshape : ([2] : List Nat) ++ beBytes 4 L ++ items =
      2 :: (L / 256 / 256 / 256 % 256) :: (L / 256 / 256 % 256) ::
        (L / 256 % 256) :: (L % 256) :: items := by
    simp [beBytes]
  rw [hshape, parseFrame]

/-! Lookup characterization of the aps dictionary builder. -/

theorem lookup_aps_alert (aps : APS) :
    lookupKV aps.serializeForAPNS "alert" =
      if aps.Alert.isZero then none else some (alertToJSON aps.Alert) := by
  unfold APS.serializeForAPNS
  rcases aps.Badge with _ | b <;> rcases aps.URLArgs with _ | l <;>
    split_ifs <;> simp_all [mapInsert, lookupKV] <;>
    split_ifs <;> simp_all [mapInsert, lookupKV]

theorem lookup_aps_badge (aps : APS) :
    lookupKV aps.serializeForAPNS "badge" = aps.Badge.map JSONValue.num := by
  unfold APS.serializeForAPNS
  rcases aps.Badge with _ | b <;> rcases aps.URLArgs with _ | l <;>
    split_ifs <;> simp_all [mapInsert, lookupKV] <;>
    split_ifs <;> simp_all [mapInsert, lookupKV]

theorem lookup_aps_sound (aps : APS) :
    lookupKV aps.serializeForAPNS "sound" =
      if aps.Sound = "" then none else some (.str aps.Sound) := by
  unfold APS.serializeForAPNS
  rcases aps.Badge with _ | b <;> rcases aps.URLArgs with _ | l <;>
    split_ifs <;> simp_all [mapInsert, lookupKV] <;>
    split_ifs <;> simp_all [mapInsert, lookupKV]

theorem lookup_aps_contentAvailable (aps : APS) :
    lookupKV aps.serializeForAPNS "content-available" =
      if aps.ContentAvailable = 0 then none
      else some (.num aps.ContentAvailable) := by
  unfold APS.serializeForAPNS
  rcases aps.Badge with _ | b <;> rcases aps.URLArgs with _ | l <;>
    split_ifs <;> simp_all [mapInsert, lookupKV] <;>
    split_ifs <;> simp_all [mapInsert, lookupKV]

theorem lookup_aps_category (aps : APS) :
    lookupKV aps.serializeForAPNS "category" =
      if aps.Category = "" then none else some (.str aps.Category) := by
  unfold APS.serializeForAPNS
  rcases aps.Badge with _ | b <;> rcases aps.URLArgs with _ | l <;>
    split_ifs <;> simp_all [mapInsert, lookupKV] <;>
    split_ifs <;> simp_all [mapInsert, lookupKV]

theorem lookup_aps_urlArgs (aps : APS) :
    lookupKV aps.serializeForAPNS "url-args" =
      (match aps.URLArgs with
        | some l => if l = [] then none else some (.arrStr l)
        | none => none) := by
  unfold APS.serializeForAPNS
  rcases aps.Badge with _ | b <;> rcases aps.URLArgs with _ | l <;>
    split_ifs <;> simp_all [mapInsert, lookupKV] <;>
    split_ifs <;> simp_all [mapInsert, lookupKV]

/-! Hex decoding of long runs of the digit a. -/

theorem hexDecode_replicate (k : Nat) :
    hexDecode (List.replicate (2 * k) 'a') = .ok (List.replicate k 170) := by
  induction k with
  | zero => rfl
  | succ k ih =>
    have h2 : 2 * (k + 1) = (2 * k) + 1 + 1 := by ring
    rw [h2, List.replicate_succ, List.replicate_succ, hexDecode]
    have ha : hexDigit 'a' = some 10 := rfl
    rw [ha, ih, List.replicate_succ]

/-- C3: as stated the claim fails; counterexample: a payload in MDM mode
whose custom-values map itself carries an aps key (settable directly on the
exported field, bypassing the mutator) serializes to a mapping that still
contains the aps key. -/
theorem c3_counterexample :
    pC3.MDM = "x" ∧
    lookupKV pC3.serializeForAPNS "aps" = some (.num 1) := ⟨rfl, rfl⟩

/-- C3 (amended): for every payload with non-empty MDM the mapping binds
mdm to that string and the serializer adds no aps binding of its own (the
aps binding is exactly the one of the custom-values map, which the
custom-value mutator keeps absent); with empty MDM the mapping binds aps
to the APS aggregator output, even when that output is empty. -/
theorem c3_amended (p : Payload) :
    (p.MDM ≠ "" →
      lookupKV p.serializeForAPNS "mdm" = some (.str p.MDM) ∧
      lookupKV p.serializeForAPNS "aps" = lookupKV p.CustomValues "aps") ∧
    (p.MDM = "" →
      lookupKV p.serializeForAPNS "aps" =
        some (.obj p.APS.serializeForAPNS)) := by
  constructor
  · intro h
    have hlen : p.MDM.length ≠ 0 := fun hl => h ((string_length_eq_zero_iff _).mp hl)
    unfold Payload.serializeForAPNS
    rw [if_pos hlen]
    exact ⟨lookupKV_mapInsert_self _ _ _,
      lookupKV_mapInsert_ne _ _ _ _ (by decide)⟩
  · intro h
    have hlen : ¬p.MDM.length ≠ 0 := by
      simp [string_length_eq_zero_iff, h]
    unfold Payload.serializeForAPNS
    rw [if_neg hlen]
    exact lookupKV_mapInsert_self _ _ _

/-- C3 witness: the amended statement evaluated at a concrete MDM payload
and at a concrete APS-mode payload. -/
theorem c3_witness :
    lookupKV pW3.serializeForAPNS "mdm" = some (.str "y") ∧
    lookupKV pW3.serializeForAPNS "aps" = lookupKV pW3.CustomValues "aps" ∧
    lookupKV pW3e.serializeForAPNS "aps" =
      some (.obj (APS.serializeForAPNS { Sound := "default" })) := by
  refine ⟨?_, ?_, ?_⟩
  · exact ((c3_amended pW3).1 (by decide)).1
  · exact ((c3_amended pW3).1 (by decide)).2
  · exact (c3_amended pW3e).2 rfl

/-- C4: each aps field is present in the serialized mapping exactly when it
is not at its documented default, with the bound value as documented, and
the all-defaults-except-sound APS serializes to exactly the single sound
binding. -/
theorem c4_field_omission (aps : APS) :
    lookupKV aps.serializeForAPNS "alert" =
      (if aps.Alert.isZero then none else some (alertToJSON aps.Alert)) ∧
    lookupKV aps.serializeForAPNS "badge" = aps.Badge.map JSONValue.num ∧
    lookupKV aps.serializeForAPNS "sound" =
      (if aps.Sound = "" then none else some (.str aps.Sound)) ∧
    lookupKV aps.serializeForAPNS "content-available" =
      (if aps.ContentAvailable = 0 then none
        else some (.num aps.ContentAvailable)) ∧
    lookupKV aps.serializeForAPNS "category" =
      (if aps.Category = "" then none else some (.str aps.Category)) ∧
    lookupKV aps.serializeForAPNS "url-args" =
      (match aps.URLArgs with
        | some l => if l = [] then none else some (.arrStr l)
        | none => none) ∧
    APS.serializeForAPNS { Sound := "default" } = [("sound", .str "default")] :=
  ⟨lookup_aps_alert aps, lookup_aps_badge aps, lookup_aps_sound aps,
    lookup_aps_contentAvailable aps, lookup_aps_category aps,
    lookup_aps_urlArgs aps, rfl⟩

/-- C5: a device token that is not valid hexadecimal makes the encoder
return the empty byte string together with an encode error wrapping the
underlying hex-decode failure. -/
theorem c5_invalid_token (n : Notification) (e : HexError)
    (h : hexDecode n.DeviceToken.data = .error e) :
    toBinary n = ([], some (.tokenDecode e)) := by
  unfold toBinary
  rw [h]

/-- C5 witness: the invalid token zz fails with the invalid-byte cause and
produces zero output bytes. -/
theorem c5_witness :
    hexDecode nZZ.DeviceToken.data = .error (.invalidByte 'z') ∧
    toBinary nZZ = ([], some (.tokenDecode (.invalidByte 'z'))) :=
  ⟨rfl, c5_invalid_token nZZ (.invalidByte 'z') rfl⟩

/-- C6: as stated the claim fails; counterexample: an alert whose only set
field is the launch image has all four fields named by the claim unset,
yet is not treated as empty, and its aps serialization does emit the alert
key. -/
theorem c6_counterexample :
    aX6.Body = "" ∧ aX6.LocKey = "" ∧ aX6.LocArgs = [] ∧
    aX6.ActionLocKey = "" ∧ aX6.isZero = false ∧
    (lookupKV apsX6.serializeForAPNS "alert").isSome = true :=
  ⟨rfl, rfl, rfl, rfl, rfl, rfl⟩

/-- C6 (amended): an alert is empty, and hence omitted from the aps
mapping, exactly when body, localization key, localization args,
action-localization key and launch image are all unset; title and action
play no part, so an alert whose only set fields are title or action is
treated as empty. -/
theorem c6_amended (a : Alert) (aps : APS) :
    (a.isZero = true ↔ (a.Body = "" ∧ a.LocKey = "" ∧ a.LocArgs = [] ∧
      a.ActionLocKey = "" ∧ a.LaunchImage = "")) ∧
    (∀ t act : String, Alert.isZero { a with Title := t, Action := act } =
      a.isZero) ∧
    (lookupKV aps.serializeForAPNS "alert" = none ↔
      aps.Alert.isZero = true) := by
  refine ⟨?_, ?_, ?_⟩
  · simp only [Alert.isZero, Bool.and_eq_true, beq_iff_eq,
      string_length_eq_zero_iff, List.length_eq_zero]
    tauto
  · intro t act
    simp [Alert.isZero]
  · rw [lookup_aps_alert]
    split_ifs with h <;> simp [h]

/-- C7: the custom-value mutator rejects key aps with an error, leaving
the payload unchanged, and for every other key stores the value in the
custom-values mapping and returns no error, leaving the other payload
fields unchanged. -/
theorem c7_set_custom_value (p : Payload) (k : String) (v : JSONValue) :
    (k = "aps" → p.SetCustomValue k v =
      (p, some "cannot assign a custom APS value in payload")) ∧
    (k ≠ "aps" → (p.SetCustomValue k v).2 = none ∧
      lookupKV (p.SetCustomValue k v).1.CustomValues k = some v ∧
      (p.SetCustomValue k v).1.APS = p.APS ∧
      (p.SetCustomValue k v).1.MDM = p.MDM) := by
  constructor
  · intro hk
    simp [Payload.SetCustomValue, hk]
  · intro hk
    simp [Payload.SetCustomValue, hk, lookupKV_mapInsert_self]

/-- C7 witness: the mutator at the reserved key aps and at the key mdm. -/
theorem c7_witness :
    pW7.SetCustomValue "aps" (.num 3) =
      (pW7, some "cannot assign a custom APS value in payload") ∧
    (pW7.SetCustomValue "mdm" (.num 3)).2 = none ∧
    lookupKV (pW7.SetCustomValue "mdm" (.num 3)).1.CustomValues "mdm" =
      some (.num 3) := by
  refine ⟨(c7_set_custom_value pW7 "aps" (.num 3)).1 rfl, ?_, ?_⟩
  · exact ((c7_set_custom_value pW7 "mdm" (.num 3)).2 (by decide)).1
  · exact ((c7_set_custom_value pW7 "mdm" (.num 3)).2 (by decide)).2.1

/-- C1: as stated the claim fails; counterexample: a device token of one
hex-digit pair decodes to a single byte, yet the length field of the
device-token item in the produced frame holds the constant 32, not 1. -/
theorem c1_counterexample :
    hexDecode nX1.DeviceToken.data = .ok [171] ∧
    toBinary nX1 = ([2, 0, 0, 0, 25, 1, 0, 32, 171, 2, 0, 0, 3, 0, 4,
      0, 0, 0, 0, 4, 0, 4, 0, 0, 0, 0, 5, 0, 1, 0], none) ∧
    ((toBinary nX1).1.drop 6).take 2 = [0, 32] ∧
    beNat [0, 32] ≠ ([171] : List Nat).length := by
  refine ⟨rfl, rfl, rfl, by decide⟩

/-- C1 (amended): the device-token item of every successfully encoded
frame carries item ID 1, a two-byte big-endian length field holding the
constant 32 regardless of how many bytes the token decoded to, and the
decoded token bytes, in full, as its value. -/
theorem c1_amended (n : Notification) (tok : List Nat)
    (h : hexDecode n.DeviceToken.data = .ok tok) :
    (∃ rest, (toBinary n).1.drop 5 =
      deviceTokenItemID :: beBytes 2 deviceTokenItemLength ++ (tok ++ rest)) ∧
    deviceTokenItemLength = 32 ∧
    beBytes 2 deviceTokenItemLength = [0, 32] := by
  refine ⟨?_, rfl, rfl⟩
  refine ⟨tlvItem payloadItemID (payloadBytes n).length (payloadBytes n) ++
    (tlvItem notificationIdentifierItemID notificationIdentifierItemLength
      (beBytes 4 n.Identifier) ++
    (tlvItem expirationDateItemID expirationDateItemLength
      (expirationValueBytes n) ++
    tlvItem priorityItemID priorityItemLength [uintOfInt 8 n.Priority])), ?_⟩
  have hframe := toBinary_ok n tok h
  have hlen : (([2] : List Nat) ++
      beBytes 4 (specFrameItems n tok).length).length = 5 := by
    simp [beBytes_length]
  rw [hframe]
  simp only [← List.append_assoc]
  rw [List.drop_left' (by simpa using hlen)]
  simp [specFrameItems, tlvItem, List.append_assoc]

/-- C1 witness: the amended statement at a concrete one-byte token. -/
theorem c1_witness :
    (∃ rest, (toBinary nW1).1.drop 5 =
      deviceTokenItemID :: beBytes 2 deviceTokenItemLength ++
        ([170] ++ rest)) ∧
    deviceTokenItemLength = 32 ∧
    beBytes 2 deviceTokenItemLength = [0, 32] :=
  c1_amended nW1 [170] rfl

/-- C2: as stated the claim fails; counterexample: a notification whose
token decodes to 2 ^ 32 bytes encodes successfully, but the outer length
field (which reads 24) differs from the byte length of the item buffer
(2 ^ 32 + 24): the 32-bit write truncates. -/
theorem c2_counterexample :
    (toBinary nC2).2 = none ∧
    (toBinary nC2).1.take 5 = [2, 0, 0, 0, 24] ∧
    ((toBinary nC2).1.drop 5).length = 2 ^ 32 + 24 ∧
    beNat [0, 0, 0, 24] ≠ 2 ^ 32 + 24 := by
  have hdec : hexDecode nC2.DeviceToken.data =
      .ok (List.replicate (2 ^ 32) 170) := by
    have h33 : (2 : Nat) ^ 33 = 2 * 2 ^ 32 := by norm_num
    show hexDecode (List.replicate (2 ^ 33) 'a') = _
    rw [h33, hexDecode_replicate]
  have hframe := toBinary_ok nC2 (List.replicate (2 ^ 32) 170) hdec
  have hpb : payloadBytes nC2 = [] := rfl
  have htok : (List.replicate (2 ^ 32) (170 : Nat)).length = 2 ^ 32 :=
    List.length_replicate _ _
  have hitems : (specFrameItems nC2 (List.replicate (2 ^ 32) 170)).length =
      2 ^ 32 + 24 := by
    rw [specFrameItems_length, hpb, htok]
    norm_num
  have hbe : beBytes 4 ((2 : Nat) ^ 32 + 24) = [0, 0, 0, 24] := by
    norm_num [beBytes]
  refine ⟨?_, ?_, ?_, by decide⟩
  · rw [hframe]
  · rw [hframe, hitems, hbe]
    rfl
  · rw [hframe, hitems, hbe]
    show (specFrameItems nC2 (List.replicate (2 ^ 32) 170)).length =
      2 ^ 32 + 24
    exact hitems

/-- C2 (amended): every successfully encoded notification yields exactly
one outer frame, the command byte 2, then a four-byte big-endian length
field holding the item-buffer byte length reduced modulo 2 ^ 32 (so equal
to the exact length whenever the buffer is shorter than 2 ^ 32 bytes),
then the five TLV items, always in the order device token, payload,
identifier, expiration, priority. -/
theorem c2_amended (n : Notification) (tok : List Nat)
    (h : hexDecode n.DeviceToken.data = .ok tok) :
    toBinary n =
      ([2] ++ beBytes 4 (specFrameItems n tok).length ++ specFrameItems n tok,
        none) ∧
    ((specFrameItems n tok).length < 2 ^ 32 →
      beNat (beBytes 4 (specFrameItems n tok).length) =
        (specFrameItems n tok).length) := by
  refine ⟨toBinary_ok n tok h, fun hl => beNat_beBytes 4 _ ?_⟩
  norm_num
  exact hl

/-- C2 witness: the amended statement at a concrete one-byte token, where
the length field recovers the item-buffer length exactly. -/
theorem c2_witness :
    toBinary nW2 =
      ([2] ++ beBytes 4 (specFrameItems nW2 [170]).length ++
        specFrameItems nW2 [170], none) ∧
    beNat (beBytes 4 (specFrameItems nW2 [170]).length) =
      (specFrameItems nW2 [170]).length := by
  have h := c2_amended nW2 [170] rfl
  exact ⟨h.1, h.2 (by decide)⟩

/-- C8: as stated the claim fails; counterexample: an expiration at Unix
time 2 ^ 32 produces the expiration item value 00 00 00 00, which is not a
big-endian encoding of 2 ^ 32 (its value is 0): the 32-bit write
truncates. -/
theorem c8_counterexample :
    nX8.Expiration = some ((2 : Int) ^ 32) ∧
    toBinary nX8 = ([2, 0, 0, 0, 24, 1, 0, 32, 2, 0, 0, 3, 0, 4,
      0, 0, 0, 0, 4, 0, 4, 0, 0, 0, 0, 5, 0, 1, 10], none) ∧
    beNat [0, 0, 0, 0] ≠ 2 ^ 32 := by
  refine ⟨rfl, ?_, by decide⟩
  rfl

/-- C8 (amended): the expiration item of every successfully encoded frame
has ID 4, length 4, and value equal to the big-endian bytes of the Unix
seconds reduced modulo 2 ^ 32 when an expiration is set (the exact
unsigned encoding whenever those seconds lie in the 32-bit range), and the
bytes 00 00 00 00 when none is set. -/
theorem c8_amended (n : Notification) (tok : List Nat)
    (h : hexDecode n.DeviceToken.data = .ok tok) :
    (∃ pre, (toBinary n).1 = pre ++
      (expirationDateItemID :: beBytes 2 expirationDateItemLength ++
        (expirationValueBytes n ++
          (priorityItemID :: beBytes 2 priorityItemLength ++
            [uintOfInt 8 n.Priority])))) ∧
    expirationValueBytes n =
      (match n.Expiration with
        | none => [0, 0, 0, 0]
        | some t => beBytes 4 ((t % ((2 : Int) ^ 32)).toNat)) := by
  constructor
  · refine ⟨[2] ++ beBytes 4 (specFrameItems n tok).length ++
      (tlvItem deviceTokenItemID deviceTokenItemLength tok ++
        (tlvItem payloadItemID (payloadBytes n).length (payloadBytes n) ++
          tlvItem notificationIdentifierItemID
            notificationIdentifierItemLength (beBytes 4 n.Identifier))), ?_⟩
    rw [toBinary_ok n tok h]
    simp [specFrameItems, tlvItem, List.append_assoc]
  · cases hE : n.Expiration <;> simp [expirationValueBytes, hE, uintOfInt, beBytes]

/-- C8 witness: the amended statement at a concrete notification expiring
at Unix time 1700000000, whose expiration value is 65 53 F1 00. -/
theorem c8_witness :
    ∃ pre, (toBinary nW8).1 = pre ++
      (expirationDateItemID :: beBytes 2 expirationDateItemLength ++
        ([101, 83, 241, 0] ++
          (priorityItemID :: beBytes 2 priorityItemLength ++ [10]))) := by
  obtain ⟨⟨pre, hp⟩, -⟩ := c8_amended nW8 [] rfl
  refine ⟨pre, ?_⟩
  rw [hp]
  norm_num [expirationValueBytes, nW8, uintOfInt, beBytes]
  decide

/-- C10: the priority item of every successfully encoded frame is the last
item, with ID 5, length 1, and a single value byte equal to the priority
reduced modulo 2 ^ 8; any integer priority is accepted (the encoder
reports no error), out-of-range values being silently truncated. -/
theorem c10_priority_byte (n : Notification) (tok : List Nat)
    (h : hexDecode n.DeviceToken.data = .ok tok) :
    (toBinary n).2 = none ∧
    ∃ pre, (toBinary n).1 = pre ++
      (priorityItemID :: beBytes 2 priorityItemLength ++
        [(n.Priority % ((2 : Int) ^ 8)).toNat]) := by
  have hframe := toBinary_ok n tok h
  constructor
  · rw [hframe]
  · refine ⟨[2] ++ beBytes 4 (specFrameItems n tok).length ++
      (tlvItem deviceTokenItemID deviceTokenItemLength tok ++
        (tlvItem payloadItemID (payloadBytes n).length (payloadBytes n) ++
          (tlvItem notificationIdentifierItemID
            notificationIdentifierItemLength (beBytes 4 n.Identifier) ++
          tlvItem expirationDateItemID expirationDateItemLength
            (expirationValueBytes n)))), ?_⟩
    rw [hframe]
    simp [specFrameItems, tlvItem, uintOfInt, List.append_assoc]

/-- C10 witness: a notification with priority -1 encodes without error and
its priority byte is 255. -/
theorem c10_witness :
    (toBinary nW10).2 = none ∧
    ∃ pre, (toBinary nW10).1 = pre ++
      (priorityItemID :: beBytes 2 priorityItemLength ++ [255]) := by
  obtain ⟨h1, pre, h2⟩ := c10_priority_byte nW10 [] rfl
  refine ⟨h1, pre, ?_⟩
  rw [h2]
  norm_num [nW10]
  decide

/-- C9: as stated the claim fails; counterexample: a notification with a
one-byte device token encodes successfully, but re-parsing the frame item
by item fails outright, because the token item declares length 32 while
only one token byte (plus the remaining items) follows. -/
theorem c9_counterexample :
    (toBinary nX9).2 = none ∧ parseFrame (toBinary nX9).1 = none :=
  ⟨rfl, rfl⟩

/-- C9 (amended): for every successfully encoded notification whose device
token decodes to exactly 32 bytes, whose payload JSON is shorter than
65536 bytes and whose identifier is in 32-bit range, re-parsing the frame
item by item recovers the decoded token, the payload JSON bytes, the
identifier (as its four big-endian bytes, whose value is the identifier),
the expiration word and the priority byte, each byte-identical to what was
encoded. -/
theorem c9_roundtrip (n : Notification) (tok : List Nat)
    (h : hexDecode n.DeviceToken.data = .ok tok)
    (h32 : tok.length = 32)
    (hj : (payloadBytes n).length < 65536)
    (hid : n.Identifier < 2 ^ 32) :
    parseFrame (toBinary n).1 =
      some [(deviceTokenItemID, tok),
        (payloadItemID, payloadBytes n),
        (notificationIdentifierItemID, beBytes 4 n.Identifier),
        (expirationDateItemID, expirationValueBytes n),
        (priorityItemID, [uintOfInt 8 n.Priority])] ∧
    beNat (beBytes 4 n.Identifier) = n.Identifier := by
  constructor
  · have hframe := toBinary_ok n tok h
    have r5 : readItem (tlvItem priorityItemID priorityItemLength
        [uintOfInt 8 n.Priority]) =
        some ((priorityItemID, [uintOfInt 8 n.Priority]), []) := by
      have h0 := readItem_tlv priorityItemID priorityItemLength
        [uintOfInt 8 n.Priority] [] rfl (by norm_num [priorityItemLength])
      simpa using h0
    have p1 : parseItems 1 (tlvItem priorityItemID priorityItemLength
        [uintOfInt 8 n.Priority]) =
        some ([(priorityItemID, [uintOfInt 8 n.Priority])], []) :=
      parseItems_cons _ _ _ _ _ _ r5 rfl
    have p2 : parseItems 2
        (tlvItem expirationDateItemID expirationDateItemLength
          (expirationValueBytes n) ++
        tlvItem priorityItemID priorityItemLength [uintOfInt 8 n.Priority]) =
        some ([(expirationDateItemID, expirationValueBytes n),
          (priorityItemID, [uintOfInt 8 n.Priority])], []) :=
      parseItems_cons _ _ _ _ _ _
        (readItem_tlv _ _ _ _ (expirationValueBytes_length n)
          (by norm_num [expirationDateItemLength])) p1
    have p3 : parseItems 3
        (tlvItem notificationIdentifierItemID notificationIdentifierItemLength
          (beBytes 4 n.Identifier) ++
        (tlvItem expirationDateItemID expirationDateItemLength
          (expirationValueBytes n) ++
        tlvItem priorityItemID priorityItemLength [uintOfInt 8 n.Priority])) =
        some ([(notificationIdentifierItemID, beBytes 4 n.Identifier),
          (expirationDateItemID, expirationValueBytes n),
          (priorityItemID, [uintOfInt 8 n.Priority])], []) :=
      parseItems_cons _ _ _ _ _ _
        (readItem_tlv _ _ _ _ (beBytes_length 4 n.Identifier)
          (by norm_num [notificationIdentifierItemLength])) p2
    have p4 : parseItems 4
        (tlvItem payloadItemID (payloadBytes n).length (payloadBytes n) ++
        (tlvItem notificationIdentifierItemID notificationIdentifierItemLength
          (beBytes 4 n.Identifier) ++
        (tlvItem expirationDateItemID expirationDateItemLength
          (expirationValueBytes n) ++
        tlvItem priorityItemID priorityItemLength
          [uintOfInt 8 n.Priority]))) =
        some ([(payloadItemID, payloadBytes n),
          (notificationIdentifierItemID, beBytes 4 n.Identifier),
          (expirationDateItemID, expirationValueBytes n),
          (priorityItemID, [uintOfInt 8 n.Priority])], []) :=
      parseItems_cons _ _ _ _ _ _ (readItem_tlv _ _ _ _ rfl hj) p3
    have p5 : parseItems 5
        (tlvItem deviceTokenItemID deviceTokenItemLength tok ++
        (tlvItem payloadItemID (payloadBytes n).length (payloadBytes n) ++
        (tlvItem notificationIdentifierItemID notificationIdentifierItemLength
          (beBytes 4 n.Identifier) ++
        (tlvItem expirationDateItemID expirationDateItemLength
          (expirationValueBytes n) ++
        tlvItem priorityItemID priorityItemLength
          [uintOfInt 8 n.Priority])))) =
        some ([(deviceTokenItemID, tok),
          (payloadItemID, payloadBytes n),
          (notificationIdentifierItemID, beBytes 4 n.Identifier),
          (expirationDateItemID, expirationValueBytes n),
          (priorityItemID, [uintOfInt 8 n.Priority])], []) :=
      parseItems_cons _ _ _ _ _ _
        (readItem_tlv _ _ _ _ h32 (by norm_num [deviceTokenItemLength])) p4
    rw [hframe]
    show parseFrame ([2] ++ beBytes 4 (specFrameItems n tok).length ++
      specFrameItems n tok) = _
    rw [parseFrame_shape]
    simp only [specFrameItems, List.append_assoc]
    rw [p5]
  · refine beNat_beBytes 4 n.Identifier ?_
    norm_num
    exact hid

/-- C9 witness: the amended round-trip at a 32-byte token, empty payload
bytes, identifier 7 and priority 10. -/
theorem c9_witness :
    parseFrame (toBinary nW9).1 =
      some [(deviceTokenItemID, List.replicate 32 170),
        (payloadItemID, []),
        (notificationIdentifierItemID, [0, 0, 0, 7]),
        (expirationDateItemID, [0, 0, 0, 0]),
        (priorityItemID, [10])] ∧
    beNat [0, 0, 0, 7] = 7 := by
  have h := c9_roundtrip nW9 (List.replicate 32 170) rfl rfl
    (by norm_num [payloadBytes, nW9]) (by norm_num [nW9])
  exact h

end APNS
